import Mathlib

/-!
Verification development for `geochemistrypy/model/clustering.py`: a thin
object-oriented façade over sklearn clustering estimators.  The module is
embedded shallowly: Python attribute values become `PyVal`, a pandas
`DataFrame` becomes an association list of named columns, the per-instance
state becomes a record of optional attributes (an absent attribute raises
`AttributeError`), and side effects (prints, plot calls, figure/data saves)
become an explicit event trace.  Methods that can raise return `Except`.
-/

/-- A Python attribute value as it appears in this module's constructor
plumbing: `None`, ints, strings, booleans, and float literals (floats are
kept as uninterpreted literals: the module never computes with them, it only
forwards them). -/
inductive PyVal where
  | none : PyVal
  | int (n : Int) : PyVal
  | str (s : String) : PyVal
  | bool (b : Bool) : PyVal
  | float (lit : String) : PyVal
  deriving DecidableEq, Repr

/-- Observable side effects of the module: console prints, delegated plot
calls, and the persistence collaborators `save_fig` / `save_data`. -/
inductive Event where
  | printed (s : String) : Event
  | printedTable : Event
  | printedValue : Event
  | scoresComputed : Event
  | silhouettePlotted : Event
  | scatter2dPlotted : Event
  | scatter3dPlotted : Event
  | dbscanResultPlotted : Event
  | savedFig (title : String) : Event
  | savedData (name : String) : Event
  deriving DecidableEq, Repr

/-- The Python exceptions this module can raise. -/
inductive PyError where
  | attributeError (attr : String) : PyError
  | keyError (key : String) : PyError
  | valueError (msg : String) : PyError
  deriving DecidableEq, Repr

/-- A pandas DataFrame, shallowly: an ordered list of named columns of
numeric values. -/
abbrev DataFrame := List (String × List Int)

/-- Number of rows of a DataFrame (length of its first column; 0 if it has
no columns). -/
def dfNRows (df : DataFrame) : Nat :=
  match df with
  | [] => 0
  | c :: _ => c.2.length

/-- Column names, in order. -/
def dfColNames (df : DataFrame) : List String :=
  df.map (fun c => c.1)

/-- Whether a column of the given name exists. -/
def dfHasCol (df : DataFrame) (name : String) : Bool :=
  df.any (fun c => c.1 == name)

/-- `df[name]`: reading a column; raises `KeyError` when absent. -/
def dfGetCol (df : DataFrame) (name : String) : Except PyError (List Int) :=
  match df.find? (fun c => c.1 == name) with
  | Option.none => Except.error (PyError.keyError name)
  | Option.some c => Except.ok c.2

/-- `df[name] = v` once the length check has passed: replace the column when
present, otherwise append it as the last column. -/
def dfSetCol (df : DataFrame) (name : String) (v : List Int) : DataFrame :=
  if dfHasCol df name then
    df.map (fun c => if c.1 == name then (name, v) else c)
  else
    df ++ [(name, v)]

/-- `df[name] = v` in pandas: raises `ValueError` when the assigned values
do not match the length of the existing columns (the index), otherwise sets
the column. -/
def dfSetColChecked (df : DataFrame) (name : String) (v : List Int) :
    Except PyError DataFrame :=
  if df.all (fun c => c.2.length == v.length) then
    Except.ok (dfSetCol df name v)
  else
    Except.error (PyError.valueError "Length of values does not match length of index")

/-- Constructor parameters passed to `sklearn.cluster.KMeans` (lines
145-153 of the source). -/
structure KMeansParams where
  n_clusters : PyVal
  init : PyVal
  n_init : PyVal
  max_iter : PyVal
  tol : PyVal
  verbose : PyVal
  random_state : PyVal
  copy_x : PyVal
  algorithm : PyVal
  deriving DecidableEq, Repr

/-- Constructor parameters passed to `sklearn.cluster.DBSCAN` (lines
255-262 of the source). -/
structure DBSCANParams where
  eps : PyVal
  min_samples : PyVal
  metric : PyVal
  metric_params : PyVal
  algorithm : PyVal
  leaf_size : PyVal
  p : PyVal
  n_jobs : PyVal
  deriving DecidableEq, Repr

/-- Constructor parameters passed to `sklearn.cluster.AffinityPropagation`
(lines 299-308 of the source). -/
structure AffinityPropagationParams where
  damping : PyVal
  max_iter : PyVal
  convergence_iter : PyVal
  copy : PyVal
  preference : PyVal
  affinity : PyVal
  verbose : PyVal
  random_state : PyVal
  deriving DecidableEq, Repr

/-- Which third-party estimator an instance wraps, with the constructor
parameters it actually received. -/
inductive EstimatorParams where
  | kmeans (ps : KMeansParams) : EstimatorParams
  | dbscan (ps : DBSCANParams) : EstimatorParams
  | affinityPropagation (ps : AffinityPropagationParams) : EstimatorParams
  deriving DecidableEq, Repr

/-- The wrapped third-party estimator object: its constructor parameters and
the fitted attributes it may or may not expose (`Option.none` models a
missing attribute, so `getattr` falls back and plain access raises). -/
structure SkEstimator where
  params : EstimatorParams
  labels_ : Option (List Int)
  cluster_centers_ : Option (List (List Int))
  inertia_ : Option PyVal
  deriving DecidableEq, Repr

/-- `sklearn.cluster.KMeans(...)`: a fresh unfitted estimator with the given
parameters; fitted attributes do not exist yet. -/
def KMeans.mkModel (ps : KMeansParams) : SkEstimator :=
  { params := EstimatorParams.kmeans ps
    labels_ := Option.none
    cluster_centers_ := Option.none
    inertia_ := Option.none }

/-- `sklearn.cluster.DBSCAN(...)`: a fresh unfitted estimator. -/
def DBSCAN.mkModel (ps : DBSCANParams) : SkEstimator :=
  { params := EstimatorParams.dbscan ps
    labels_ := Option.none
    cluster_centers_ := Option.none
    inertia_ := Option.none }

/-- `sklearn.cluster.AffinityPropagation(...)`: a fresh unfitted
estimator. -/
def AffinityPropagation.mkModel (ps : AffinityPropagationParams) : SkEstimator :=
  { params := EstimatorParams.affinityPropagation ps
    labels_ := Option.none
    cluster_centers_ := Option.none
    inertia_ := Option.none }

/-- The result of fitting a sklearn KMeans estimator: per the sklearn API it
exposes `labels_`, `cluster_centers_` and `inertia_`.  The numeric outcome
of the external computation is opaque to this layer, so it is taken as an
argument. -/
def KMeans.fitModel (m : SkEstimator) (labels : List Int)
    (centers : List (List Int)) (inertia : PyVal) : SkEstimator :=
  { m with labels_ := Option.some labels
           cluster_centers_ := Option.some centers
           inertia_ := Option.some inertia }

/-- The result of fitting a sklearn DBSCAN estimator: per the sklearn API it
exposes `labels_` (one label per sample) but never defines
`cluster_centers_`.  The labels themselves are the opaque outcome of the
external computation. -/
def DBSCAN.fitModel (m : SkEstimator) (labels : List Int) : SkEstimator :=
  { m with labels_ := Option.some labels }

/-- The attributes the base-class methods touch on `self`: the stored
feature table `X`, the wrapped estimator `model`, and the algorithm name
`naming`.  `Option.none` models an attribute that was never assigned, so
accessing it raises `AttributeError`. -/
structure WorkflowCore where
  X : Option DataFrame
  model : Option SkEstimator
  naming : Option String
  deriving DecidableEq, Repr

/-- Modelled from the spec: `WorkflowBase.__init__` lives in `._base`, which
is not under `src/`; per the spec it is generic lifecycle scaffolding and
the placeholder subclasses that rely on it alone have "no estimator
assigned", so after it runs the instance has no `model` attribute (and no
`X`, no `naming`). -/
def WorkflowBase.initCore : WorkflowCore :=
  { X := Option.none, model := Option.none, naming := Option.none }

/-- `ClusteringWorkflowBase.__init__` (lines 29-30): only
`super().__init__()`. -/
def ClusteringWorkflowBase.initCore : WorkflowCore :=
  WorkflowBase.initCore

/-- `ClusteringWorkflowBase.fit` (lines 32-34): store the feature table on
`self`, then delegate fitting entirely to the wrapped estimator.  The
third-party fit itself is opaque, so it is a function argument `skFit`.
Accessing `self.model` when no estimator was ever assigned raises
`AttributeError`. -/
def ClusteringWorkflowBase.fit (skFit : SkEstimator → DataFrame → SkEstimator)
    (st : WorkflowCore) (X : DataFrame) : Except PyError WorkflowCore :=
  let st1 : WorkflowCore := { st with X := Option.some X }
  match st1.model with
  | Option.none => Except.error (PyError.attributeError "model")
  | Option.some m => Except.ok { st1 with model := Option.some (skFit m X) }

/-- Result of `get_cluster_centers`: either the estimator's centers array or
the string fallback of the `getattr` call. -/
inductive CentersResult where
  | centers (c : List (List Int)) : CentersResult
  | strFallback (s : String) : CentersResult
  deriving DecidableEq, Repr

/-- Console output of `get_cluster_centers` (lines 37-38): the header and
the printed attribute value. -/
def ClusteringWorkflowBase.centersPrintEvents : List Event :=
  [Event.printed "-----* Clustering Centers *-----", Event.printedValue]

/-- `ClusteringWorkflowBase.get_cluster_centers` (lines 36-39): prints a
header, then `getattr(self.model, 'cluster_centers_', '...')` — the centers
when the estimator has them, else a descriptive placeholder string; no
exception is raised for a missing estimator attribute. -/
def ClusteringWorkflowBase.get_cluster_centers (st : WorkflowCore) :
    Except PyError (CentersResult × List Event) :=
  match st.model with
  | Option.none => Except.error (PyError.attributeError "model")
  | Option.some m =>
    let r : CentersResult :=
      match m.cluster_centers_ with
      | Option.none => CentersResult.strFallback "This class don not have cluster_centers_"
      | Option.some c => CentersResult.centers c
    Except.ok (r, ClusteringWorkflowBase.centersPrintEvents)

/-- `ClusteringWorkflowBase.get_labels` (lines 41-45): print a header,
assign `self.X['clustering result'] = self.model.labels_`, print the table,
and persist it with `save_data(self.X, f"...self.naming...", ...)`.
Attribute accesses happen in source order, so the first missing attribute
determines the raised error. -/
def ClusteringWorkflowBase.get_labels (st : WorkflowCore) :
    Except PyError (WorkflowCore × List Event) :=
  match st.X with
  | Option.none => Except.error (PyError.attributeError "X")
  | Option.some df =>
    match st.model with
    | Option.none => Except.error (PyError.attributeError "model")
    | Option.some m =>
      match m.labels_ with
      | Option.none => Except.error (PyError.attributeError "labels_")
      | Option.some labels =>
        match dfSetColChecked df "clustering result" labels with
        | Except.error e => Except.error e
        | Except.ok df1 =>
          match st.naming with
          | Option.none => Except.error (PyError.attributeError "naming")
          | Option.some nm =>
            Except.ok ({ st with X := Option.some df1 },
              [Event.printed "-----* Clustering Labels *-----",
               Event.printedTable, Event.savedData nm])

/-- `kwargs[k]` for the `special_components(**kwargs)` methods: the
components count is the only keyword this module reads, and it is compared
with integers, so keyword values are carried as `Int`.  A missing key raises
`KeyError`. -/
def kwLookup (kwargs : List (String × Int)) (k : String) : Except PyError Int :=
  match kwargs.find? (fun p => p.1 == k) with
  | Option.none => Except.error (PyError.keyError k)
  | Option.some p => Except.ok p.2

/-- `KMeansClustering`: the attributes its `__init__` (lines 135-154)
assigns on `self` — the nine stored hyperparameters plus the shared
workflow attributes. -/
structure KMeansClusteringState where
  core : WorkflowCore
  n_clusters : PyVal
  init : PyVal
  max_iter : PyVal
  tol : PyVal
  n_init : PyVal
  verbose : PyVal
  random_state : PyVal
  copy_x : PyVal
  algorithm : PyVal
  deriving DecidableEq, Repr

/-- Class attribute `KMeansClustering.name` (line 50). -/
def KMeansClustering.name : String := "KMeans"

/-- `KMeansClustering.__init__` (lines 53-154): store the nine
hyperparameters on `self`, build the `KMeans` estimator from the stored
values, set `self.naming` to the class's declared name. -/
def KMeansClustering.initState (n_clusters init n_init max_iter tol verbose
    random_state copy_x algorithm : PyVal) : KMeansClusteringState :=
  { core :=
      { X := Option.none
        model := Option.some (KMeans.mkModel
          { n_clusters := n_clusters, init := init, n_init := n_init,
            max_iter := max_iter, tol := tol, verbose := verbose,
            random_state := random_state, copy_x := copy_x,
            algorithm := algorithm })
        naming := Option.some KMeansClustering.name }
    n_clusters := n_clusters, init := init, max_iter := max_iter, tol := tol,
    n_init := n_init, verbose := verbose, random_state := random_state,
    copy_x := copy_x, algorithm := algorithm }

/-- Console output of `_get_scores` (lines 157-160): the header and the
three reported scores. -/
def KMeansClustering.scoresEvents : List Event :=
  [Event.printed "-----* KMeans Scores *-----", Event.scoresComputed]

/-- `KMeansClustering._get_scores` (lines 156-160): prints the estimator's
inertia and two external cluster-quality metrics of `self.X` and
`self.model.labels_`.  The metric values are external; only the attribute
accesses and the reporting effect are modelled. -/
def KMeansClustering.get_scores (st : KMeansClusteringState) :
    Except PyError (List Event) :=
  match st.core.model with
  | Option.none => Except.error (PyError.attributeError "model")
  | Option.some m =>
    match m.inertia_ with
    | Option.none => Except.error (PyError.attributeError "inertia_")
    | Option.some _ =>
      match st.core.X with
      | Option.none => Except.error (PyError.attributeError "X")
      | Option.some _ =>
        match m.labels_ with
        | Option.none => Except.error (PyError.attributeError "labels_")
        | Option.some _ =>
          Except.ok KMeansClustering.scoresEvents

/-- Events of `KMeansClustering._plot_silhouette_diagram` (lines 162-166):
header print, delegated silhouette plot, figure save. -/
def KMeansClustering.silhouetteEvents (algorithm_name : String) : List Event :=
  [Event.printed "-----* Silhouette Diagram *-----",
   Event.silhouettePlotted,
   Event.savedFig (String.append "Silhouette Diagram - " algorithm_name)]

/-- Events of `KMeansClustering._scatter2d` (lines 168-171): header print,
delegated 2D scatter, figure save. -/
def KMeansClustering.scatter2dEvents (algorithm_name : String) : List Event :=
  [Event.printed "-----* Bi-plot *-----",
   Event.scatter2dPlotted,
   Event.savedFig (String.append "Bi-plot - " algorithm_name)]

/-- Events of `KMeansClustering._scatter3d` (lines 173-175): header print
and delegated 3D scatter; note it saves no figure. -/
def KMeansClustering.scatter3dEvents : List Event :=
  [Event.printed "-----* Tri-plot *-----", Event.scatter3dPlotted]

/-- `KMeansClustering.special_components` (lines 177-191): compute the
scores, render the silhouette diagram (its keyword arguments are evaluated
left to right: `self.X`, `self.X['clustering result']`,
`self.get_cluster_centers()`, `self.n_clusters`, `self.naming`), then
branch on `kwargs['components_num']`: above 3 and equal to 3 both give the
3D scatter, 2 gives the 2D scatter, anything else does nothing. -/
def KMeansClustering.special_components (st : KMeansClusteringState)
    (kwargs : List (String × Int)) : Except PyError (List Event) :=
  match KMeansClustering.get_scores st with
  | Except.error e => Except.error e
  | Except.ok ev1 =>
    match st.core.X with
    | Option.none => Except.error (PyError.attributeError "X")
    | Option.some df =>
      match dfGetCol df "clustering result" with
      | Except.error e => Except.error e
      | Except.ok _ =>
        match ClusteringWorkflowBase.get_cluster_centers st.core with
        | Except.error e => Except.error e
        | Except.ok (_, ev2) =>
          match st.core.naming with
          | Option.none => Except.error (PyError.attributeError "naming")
          | Option.some nm =>
            let ev3 := KMeansClustering.silhouetteEvents nm
            match kwLookup kwargs "components_num" with
            | Except.error e => Except.error e
            | Except.ok cn =>
              let ev4 :=
                if cn > 3 then KMeansClustering.scatter3dEvents
                else if cn = 3 then KMeansClustering.scatter3dEvents
                else if cn = 2 then KMeansClustering.scatter2dEvents nm
                else []
              Except.ok (ev1 ++ ev2 ++ ev3 ++ ev4)

/-- `DBSCANClustering`: the attributes its `__init__` (lines 199-263)
assigns on `self` — the eight stored hyperparameters plus the shared
workflow attributes. -/
structure DBSCANClusteringState where
  core : WorkflowCore
  eps : PyVal
  min_samples : PyVal
  metric : PyVal
  metric_params : PyVal
  algorithm : PyVal
  leaf_size : PyVal
  p : PyVal
  n_jobs : PyVal
  deriving DecidableEq, Repr

/-- Class attribute `DBSCANClustering.name` (line 196). -/
def DBSCANClustering.name : String := "DBSCAN"

/-- `DBSCANClustering.__init__` (lines 199-263): store the eight
hyperparameters on `self`, build the `DBSCAN` estimator from the stored
values, set `self.naming` to the class's declared name. -/
def DBSCANClustering.initState (eps min_samples metric metric_params
    algorithm leaf_size p n_jobs : PyVal) : DBSCANClusteringState :=
  { core :=
      { X := Option.none
        model := Option.some (DBSCAN.mkModel
          { eps := eps, min_samples := min_samples, metric := metric,
            metric_params := metric_params, algorithm := algorithm,
            leaf_size := leaf_size, p := p, n_jobs := n_jobs })
        naming := Option.some DBSCANClustering.name }
    eps := eps, min_samples := min_samples, metric := metric,
    metric_params := metric_params, algorithm := algorithm,
    leaf_size := leaf_size, p := p, n_jobs := n_jobs }

/-- Events of `DBSCANClustering.clustering_result_plot` (lines 265-269):
header print, delegated DBSCAN result plot, figure save. -/
def DBSCANClustering.resultPlotEvents (algorithm_name : String) : List Event :=
  [Event.printed "-------** dbscan_clustering_result_2d_plot **----------",
   Event.dbscanResultPlotted,
   Event.savedFig (String.append (String.append "Plot - " algorithm_name) " - 2D")]

/-- `DBSCANClustering.special_components` (lines 271-272): unconditionally
delegate to `clustering_result_plot(self.X, self.model, self.naming, ...)`;
the keyword arguments are never read. -/
def DBSCANClustering.special_components (st : DBSCANClusteringState)
    (_kwargs : List (String × Int)) : Except PyError (List Event) :=
  match st.core.X with
  | Option.none => Except.error (PyError.attributeError "X")
  | Option.some _ =>
    match st.core.model with
    | Option.none => Except.error (PyError.attributeError "model")
    | Option.some _ =>
      match st.core.naming with
      | Option.none => Except.error (PyError.attributeError "naming")
      | Option.some nm => Except.ok (DBSCANClustering.resultPlotEvents nm)

/-- `AffinityPropagationClustering`: the attributes its `__init__` (lines
278-309) assigns on `self` — the eight stored hyperparameters plus the
shared workflow attributes. -/
structure AffinityPropagationClusteringState where
  core : WorkflowCore
  damping : PyVal
  max_iter : PyVal
  convergence_iter : PyVal
  copy : PyVal
  verbose : PyVal
  preference : PyVal
  affinity : PyVal
  random_state : PyVal
  deriving DecidableEq, Repr

/-- Class attribute `AffinityPropagationClustering.name` (line 276). -/
def AffinityPropagationClustering.name : String := "AffinityPropagation"

/-- `AffinityPropagationClustering.__init__` (lines 278-309): store all
eight hyperparameters on `self`, but build the `AffinityPropagation`
estimator with `damping`/`max_iter`/`convergence_iter`/`copy` taken from
`self` while `preference`, `affinity`, `verbose` and `random_state` are
written as the literals `None`, `"euclidean"`, `False`, `None` (lines
303-306) regardless of the caller's arguments. -/
def AffinityPropagationClustering.initState (damping max_iter
    convergence_iter copy preference affinity verbose random_state : PyVal) :
    AffinityPropagationClusteringState :=
  { core :=
      { X := Option.none
        model := Option.some (AffinityPropagation.mkModel
          { damping := damping, max_iter := max_iter,
            convergence_iter := convergence_iter, copy := copy,
            preference := PyVal.none,
            affinity := PyVal.str "euclidean",
            verbose := PyVal.bool false,
            random_state := PyVal.none })
        naming := Option.some AffinityPropagationClustering.name }
    damping := damping, max_iter := max_iter,
    convergence_iter := convergence_iter, copy := copy, verbose := verbose,
    preference := preference, affinity := affinity,
    random_state := random_state }

/-- Class attribute `MeanShiftClustering.name` (line 315); the class body is
otherwise empty, so instances are built by the inherited
`ClusteringWorkflowBase.__init__`. -/
def MeanShiftClustering.name : String := "MeanShift"

/-- An instance of the placeholder class `MeanShiftClustering` (lines
314-316) right after construction. -/
def MeanShiftClustering.initState : WorkflowCore := ClusteringWorkflowBase.initCore

/-- Class attribute `SpectralClustering.name` (line 320). -/
def SpectralClustering.name : String := "Spectral"

/-- An instance of the placeholder class `SpectralClustering` (lines
319-321) right after construction. -/
def SpectralClustering.initState : WorkflowCore := ClusteringWorkflowBase.initCore

/-- Class attribute `WardHierarchicalClustering.name` (line 325). -/
def WardHierarchicalClustering.name : String := "WardHierarchical"

/-- An instance of the placeholder class `WardHierarchicalClustering`
(lines 324-326) right after construction. -/
def WardHierarchicalClustering.initState : WorkflowCore := ClusteringWorkflowBase.initCore

/-- Class attribute `AgglomerativeClustering.name` (line 330). -/
def AgglomerativeClustering.name : String := "Agglomerative"

/-- An instance of the placeholder class `AgglomerativeClustering` (lines
329-331) right after construction. -/
def AgglomerativeClustering.initState : WorkflowCore := ClusteringWorkflowBase.initCore

/-- Class attribute `OPTICSClustering.name` (line 338). -/
def OPTICSClustering.name : String := "OPTICS"

/-- An instance of the placeholder class `OPTICSClustering` (lines 337-339)
right after construction. -/
def OPTICSClustering.initState : WorkflowCore := ClusteringWorkflowBase.initCore

/-- Class attribute `GaussianMixturesClustering.name` (line 343). -/
def GaussianMixturesClustering.name : String := "GaussianMixtures"

/-- An instance of the placeholder class `GaussianMixturesClustering`
(lines 342-344) right after construction. -/
def GaussianMixturesClustering.initState : WorkflowCore := ClusteringWorkflowBase.initCore

/-- Class attribute `BIRCHClusteringClustering.name` (line 348). -/
def BIRCHClusteringClustering.name : String := "BIRCHClustering"

/-- An instance of the placeholder class `BIRCHClusteringClustering`
(lines 347-349) right after construction. -/
def BIRCHClusteringClustering.initState : WorkflowCore := ClusteringWorkflowBase.initCore

/-- Class attribute `BisectingKMeansClustering.name` (line 353). -/
def BisectingKMeansClustering.name : String := "BisectingKMeans"

/-- An instance of the placeholder class `BisectingKMeansClustering`
(lines 352-354) right after construction. -/
def BisectingKMeansClustering.initState : WorkflowCore := ClusteringWorkflowBase.initCore

/-- Scatter-plot events (the 2D and 3D scatter calls of
`KMeansClustering.special_components`). -/
def Event.isScatter : Event → Bool
  | Event.scatter2dPlotted => true
  | Event.scatter3dPlotted => true
  | _ => false

/-- Figure-save events (`save_fig` calls). -/
def Event.isSavedFig : Event → Bool
  | Event.savedFig _ => true
  | _ => false

/-- A heap of DataFrame objects, for the Python reference semantics of
`self.X = X`: the caller and the workflow instance can alias the same
object.  A reference is an index into the heap. -/
abbrev DFHeap := List DataFrame

/-- Dereference a heap reference. -/
def DFHeap.deref (h : DFHeap) (r : Nat) : DataFrame := h.getD r []

/-- `ClusteringWorkflowBase`'s attributes in the reference-semantics model:
`self.X` holds a heap reference, not a table value. -/
structure WorkflowRefCore where
  Xref : Option Nat
  model : Option SkEstimator
  naming : Option String
  deriving DecidableEq, Repr

/-- `ClusteringWorkflowBase.fit` on the heap model (lines 32-34): the
assignment `self.X = X` binds the caller's reference itself — no table is
copied, the heap is returned unchanged — and then the estimator is fitted
on the referenced table. -/
def ClusteringWorkflowBase.fitRef (skFit : SkEstimator → DataFrame → SkEstimator)
    (h : DFHeap) (st : WorkflowRefCore) (r : Nat) :
    Except PyError (DFHeap × WorkflowRefCore) :=
  let st1 : WorkflowRefCore := { st with Xref := Option.some r }
  match st1.model with
  | Option.none => Except.error (PyError.attributeError "model")
  | Option.some m =>
    Except.ok (h, { st1 with model := Option.some (skFit m (DFHeap.deref h r)) })

/-- `ClusteringWorkflowBase.get_labels` on the heap model (lines 41-45):
`self.X['clustering result'] = self.model.labels_` mutates the referenced
DataFrame object in place on the heap. -/
def ClusteringWorkflowBase.get_labelsRef (h : DFHeap) (st : WorkflowRefCore) :
    Except PyError (DFHeap × WorkflowRefCore × List Event) :=
  match st.Xref with
  | Option.none => Except.error (PyError.attributeError "X")
  | Option.some r =>
    match st.model with
    | Option.none => Except.error (PyError.attributeError "model")
    | Option.some m =>
      match m.labels_ with
      | Option.none => Except.error (PyError.attributeError "labels_")
      | Option.some labels =>
        match dfSetColChecked (DFHeap.deref h r) "clustering result" labels with
        | Except.error e => Except.error e
        | Except.ok df1 =>
          match st.naming with
          | Option.none => Except.error (PyError.attributeError "naming")
          | Option.some nm =>
            Except.ok (h.set r df1, st,
              [Event.printed "-----* Clustering Labels *-----",
               Event.printedTable, Event.savedData nm])

/-- The 2D scatter call. -/
def Event.isScatter2d : Event → Bool
  | Event.scatter2dPlotted => true
  | _ => false

/-- The 3D scatter call. -/
def Event.isScatter3d : Event → Bool
  | Event.scatter3dPlotted => true
  | _ => false

/-- The score-reporting effect. -/
def Event.isScore : Event → Bool
  | Event.scoresComputed => true
  | _ => false

/-- The delegated DBSCAN result-plot call. -/
def Event.isDbscanPlot : Event → Bool
  | Event.dbscanResultPlotted => true
  | _ => false

theorem find?_none_of_not_hasCol {df : DataFrame} {name : String}
    (h : dfHasCol df name = false) :
    df.find? (fun c => c.1 == name) = Option.none := by
  rw [List.find?_eq_none]
  exact List.any_eq_false.mp h

theorem dfGetCol_of_not_hasCol {df : DataFrame} {name : String}
    (h : dfHasCol df name = false) :
    dfGetCol df name = Except.error (PyError.keyError name) := by
  simp [dfGetCol, find?_none_of_not_hasCol h]

theorem dfGetCol_append_self {df : DataFrame} {name : String} {v : List Int}
    (h : dfHasCol df name = false) :
    dfGetCol (df ++ [(name, v)]) name = Except.ok v := by
  simp [dfGetCol, List.find?_append, find?_none_of_not_hasCol h]

theorem dfGetCol_error_keyError {df : DataFrame} {name : String} {e : PyError}
    (h : dfGetCol df name = Except.error e) : e = PyError.keyError name := by
  unfold dfGetCol at h
  cases hf : df.find? (fun c => c.1 == name) with
  | none =>
    rw [hf] at h
    simp only [] at h
    exact ((Except.error.injEq (PyError.keyError name) e).mp h).symm
  | some c => rw [hf] at h; cases h

theorem dfSetCol_of_hasCol {df : DataFrame} {name : String} (v : List Int)
    (h : dfHasCol df name = true) :
    dfSetCol df name v = df.map (fun c => if c.1 == name then (name, v) else c) := by
  simp [dfSetCol, h]

theorem dfSetCol_of_not_hasCol {df : DataFrame} {name : String} (v : List Int)
    (h : dfHasCol df name = false) :
    dfSetCol df name v = df ++ [(name, v)] := by
  simp [dfSetCol, h]

theorem dfHasCol_setCol (df : DataFrame) (name : String) (v : List Int) :
    dfHasCol (dfSetCol df name v) name = true := by
  cases h : dfHasCol df name with
  | false =>
    rw [dfSetCol_of_not_hasCol v h]
    simp [dfHasCol, List.any_append]
  | true =>
    rw [dfSetCol_of_hasCol v h]
    unfold dfHasCol at h ⊢
    rw [List.any_map]
    rcases List.any_eq_true.mp h with ⟨c, hc, hpc⟩
    refine List.any_eq_true.mpr ⟨c, hc, ?_⟩
    simp only [Function.comp]
    rw [if_pos hpc]
    simp

theorem dfSetCol_idem (df : DataFrame) (name : String) (v : List Int) :
    dfSetCol (dfSetCol df name v) name v = dfSetCol df name v := by
  have hf : ∀ c : String × List Int,
      (fun c : String × List Int => if c.1 == name then (name, v) else c)
        ((fun c : String × List Int => if c.1 == name then (name, v) else c) c) =
      (fun c : String × List Int => if c.1 == name then (name, v) else c) c := by
    intro c
    by_cases hc : (c.1 == name) = true
    · simp [hc]
    · simp [hc]
  rw [dfSetCol_of_hasCol v (dfHasCol_setCol df name v)]
  cases h : dfHasCol df name with
  | true =>
    rw [dfSetCol_of_hasCol v h, List.map_map]
    exact List.map_congr_left (fun c _ => hf c)
  | false =>
    rw [dfSetCol_of_not_hasCol v h, List.map_append]
    have h1 : df.map (fun c : String × List Int => if c.1 == name then (name, v) else c) = df := by
      have h2 := List.any_eq_false.mp h
      calc df.map (fun c : String × List Int => if c.1 == name then (name, v) else c)
          = df.map id := List.map_congr_left (fun c hc => by
            simp only [id]
            rw [if_neg (by simpa using h2 c hc)])
        _ = df := List.map_id df
    rw [h1]
    simp

theorem dfSetCol_all_lengths {df : DataFrame} {name : String} {v : List Int}
    (h : df.all (fun c => c.2.length == v.length) = true) :
    (dfSetCol df name v).all (fun c => c.2.length == v.length) = true := by
  cases hh : dfHasCol df name with
  | true =>
    rw [dfSetCol_of_hasCol v hh, List.all_map]
    refine List.all_eq_true.mpr ?_
    intro c hc
    have hc2 := List.all_eq_true.mp h c hc
    simp only [Function.comp]
    by_cases hn : (c.1 == name) = true
    · rw [if_pos hn]; simp
    · rw [if_neg hn]; exact hc2
  | false =>
    rw [dfSetCol_of_not_hasCol v hh, List.all_append]
    simp [h]

/-- C1: For every construction of `AffinityPropagationClustering`, the four
constructor parameters `preference`, `affinity`, `verbose` and
`random_state` are hardcoded to the fixed defaults `None`, `"euclidean"`,
`False`, `None` when building the underlying estimator, even though the
caller-supplied values are stored on `self`; the other four parameters
(`damping`, `max_iter`, `convergence_iter`, `copy`) are forwarded from the
caller-supplied values. -/
theorem spec_C1_affinity_propagation_hardcodes_four
    (damping max_iter convergence_iter copy preference affinity verbose
      random_state : PyVal) :
    ∃ ps : AffinityPropagationParams,
      (AffinityPropagationClustering.initState damping max_iter
          convergence_iter copy preference affinity verbose
          random_state).core.model = Option.some (AffinityPropagation.mkModel ps) ∧
      ps.preference = PyVal.none ∧
      ps.affinity = PyVal.str "euclidean" ∧
      ps.verbose = PyVal.bool false ∧
      ps.random_state = PyVal.none ∧
      ps.damping = damping ∧
      ps.max_iter = max_iter ∧
      ps.convergence_iter = convergence_iter ∧
      ps.copy = copy ∧
      (AffinityPropagationClustering.initState damping max_iter
          convergence_iter copy preference affinity verbose
          random_state).preference = preference ∧
      (AffinityPropagationClustering.initState damping max_iter
          convergence_iter copy preference affinity verbose
          random_state).affinity = affinity ∧
      (AffinityPropagationClustering.initState damping max_iter
          convergence_iter copy preference affinity verbose
          random_state).verbose = verbose ∧
      (AffinityPropagationClustering.initState damping max_iter
          convergence_iter copy preference affinity verbose
          random_state).random_state = random_state :=
  ⟨_, rfl, rfl, rfl, rfl, rfl, rfl, rfl, rfl, rfl, rfl, rfl, rfl, rfl⟩

/-- C6: For every construction of `KMeansClustering` and of
`DBSCANClustering`, each of the named hyperparameters (all nine listed for
KMeans, all eight listed for DBSCAN) is forwarded verbatim from the
constructor arguments into the underlying estimator at construction
time. -/
theorem spec_C6_kmeans_dbscan_forward_hyperparameters
    (n_clusters init n_init max_iter tol verbose random_state copy_x
      algorithm eps min_samples metric metric_params algorithm2 leaf_size
      p n_jobs : PyVal) :
    (∃ ps : KMeansParams,
      (KMeansClustering.initState n_clusters init n_init max_iter tol
          verbose random_state copy_x algorithm).core.model =
        Option.some (KMeans.mkModel ps) ∧
      ps.n_clusters = n_clusters ∧
      ps.init = init ∧
      ps.n_init = n_init ∧
      ps.max_iter = max_iter ∧
      ps.tol = tol ∧
      ps.verbose = verbose ∧
      ps.random_state = random_state ∧
      ps.copy_x = copy_x ∧
      ps.algorithm = algorithm) ∧
    (∃ qs : DBSCANParams,
      (DBSCANClustering.initState eps min_samples metric metric_params
          algorithm2 leaf_size p n_jobs).core.model =
        Option.some (DBSCAN.mkModel qs) ∧
      qs.eps = eps ∧
      qs.min_samples = min_samples ∧
      qs.metric = metric ∧
      qs.metric_params = metric_params ∧
      qs.algorithm = algorithm2 ∧
      qs.leaf_size = leaf_size ∧
      qs.p = p ∧
      qs.n_jobs = n_jobs) :=
  ⟨⟨_, rfl, rfl, rfl, rfl, rfl, rfl, rfl, rfl, rfl, rfl⟩,
   ⟨_, rfl, rfl, rfl, rfl, rfl, rfl, rfl, rfl, rfl⟩⟩

/-- C5: For each of the eight placeholder classes, calling `fit` fails with
an attribute-not-found error for `model` — no estimator was ever assigned —
whatever the input table and whatever the third-party fitting behaviour; it
never silently succeeds. -/
theorem spec_C5_placeholder_fit_raises
    (skFit : SkEstimator → DataFrame → SkEstimator) (X : DataFrame) :
    ClusteringWorkflowBase.fit skFit MeanShiftClustering.initState X =
      Except.error (PyError.attributeError "model") ∧
    ClusteringWorkflowBase.fit skFit SpectralClustering.initState X =
      Except.error (PyError.attributeError "model") ∧
    ClusteringWorkflowBase.fit skFit WardHierarchicalClustering.initState X =
      Except.error (PyError.attributeError "model") ∧
    ClusteringWorkflowBase.fit skFit AgglomerativeClustering.initState X =
      Except.error (PyError.attributeError "model") ∧
    ClusteringWorkflowBase.fit skFit OPTICSClustering.initState X =
      Except.error (PyError.attributeError "model") ∧
    ClusteringWorkflowBase.fit skFit GaussianMixturesClustering.initState X =
      Except.error (PyError.attributeError "model") ∧
    ClusteringWorkflowBase.fit skFit BIRCHClusteringClustering.initState X =
      Except.error (PyError.attributeError "model") ∧
    ClusteringWorkflowBase.fit skFit BisectingKMeansClustering.initState X =
      Except.error (PyError.attributeError "model") :=
  ⟨rfl, rfl, rfl, rfl, rfl, rfl, rfl, rfl⟩

/-- C3: For every workflow instance holding an estimator,
`get_cluster_centers()` returns the estimator's `cluster_centers_`
attribute when that attribute is present, and otherwise returns the
descriptive placeholder string instead of raising; in particular, for a
fitted `DBSCANClustering` instance it returns the placeholder string and
never raises. -/
theorem spec_C3_cluster_centers_placeholder :
    (∀ (st : WorkflowCore) (m : SkEstimator) (c : List (List Int)),
      st.model = Option.some m → m.cluster_centers_ = Option.some c →
      ClusteringWorkflowBase.get_cluster_centers st =
        Except.ok (CentersResult.centers c, ClusteringWorkflowBase.centersPrintEvents)) ∧
    (∀ (st : WorkflowCore) (m : SkEstimator),
      st.model = Option.some m → m.cluster_centers_ = Option.none →
      ClusteringWorkflowBase.get_cluster_centers st =
        Except.ok (CentersResult.strFallback "This class don not have cluster_centers_",
          ClusteringWorkflowBase.centersPrintEvents)) ∧
    (∀ (ps : DBSCANParams) (labels : List Int) (st : WorkflowCore),
      st.model = Option.some (DBSCAN.fitModel (DBSCAN.mkModel ps) labels) →
      ClusteringWorkflowBase.get_cluster_centers st =
        Except.ok (CentersResult.strFallback "This class don not have cluster_centers_",
          ClusteringWorkflowBase.centersPrintEvents)) := by
  refine ⟨?_, ?_, ?_⟩
  · intro st m c hM hC
    simp [ClusteringWorkflowBase.get_cluster_centers, hM, hC]
  · intro st m hM hC
    simp [ClusteringWorkflowBase.get_cluster_centers, hM, hC]
  · intro ps labels st hM
    simp [ClusteringWorkflowBase.get_cluster_centers, hM, DBSCAN.fitModel, DBSCAN.mkModel]

/-- Closed instance of `spec_C3_cluster_centers_placeholder`: a fitted
KMeans-style estimator with centers returns them, an estimator without the
attribute returns the placeholder, and a fitted DBSCAN estimator returns
the placeholder. -/
theorem spec_C3_witness :
    ClusteringWorkflowBase.get_cluster_centers
      { X := Option.none,
        model := Option.some
          { params := EstimatorParams.kmeans
              { n_clusters := PyVal.int 8, init := PyVal.str "k-means++",
                n_init := PyVal.int 10, max_iter := PyVal.int 300,
                tol := PyVal.float "1e-4", verbose := PyVal.int 0,
                random_state := PyVal.none, copy_x := PyVal.bool true,
                algorithm := PyVal.str "auto" },
            labels_ := Option.some [0, 1],
            cluster_centers_ := Option.some [[1], [2]],
            inertia_ := Option.some (PyVal.int 3) },
        naming := Option.some "KMeans" } =
      Except.ok (CentersResult.centers [[1], [2]],
        ClusteringWorkflowBase.centersPrintEvents) ∧
    ClusteringWorkflowBase.get_cluster_centers
      { X := Option.none,
        model := Option.some (DBSCAN.fitModel
          (DBSCAN.mkModel
            { eps := PyVal.float "0.5", min_samples := PyVal.int 5,
              metric := PyVal.str "euclidean", metric_params := PyVal.none,
              algorithm := PyVal.str "auto", leaf_size := PyVal.int 30,
              p := PyVal.none, n_jobs := PyVal.none }) [0, -1]),
        naming := Option.some "DBSCAN" } =
      Except.ok (CentersResult.strFallback "This class don not have cluster_centers_",
        ClusteringWorkflowBase.centersPrintEvents) :=
  ⟨spec_C3_cluster_centers_placeholder.1 _ _ [[1], [2]] rfl rfl,
   spec_C3_cluster_centers_placeholder.2.2 _ [0, -1] _ rfl⟩

/-- C7: For every fitted `DBSCANClustering` instance, `special_components`
computes no score and unconditionally invokes exactly one 2D result plot —
the delegated DBSCAN renderer followed by one figure save — with no
branching on dimensionality or on any caller-supplied argument (any two
keyword-argument lists give the same result). -/
theorem spec_C7_dbscan_special_components_unconditional
    (st : DBSCANClusteringState) (df : DataFrame) (m : SkEstimator)
    (nm : String) (kwargs kwargs2 : List (String × Int))
    (hX : st.core.X = Option.some df)
    (hM : st.core.model = Option.some m)
    (hN : st.core.naming = Option.some nm) :
    DBSCANClustering.special_components st kwargs =
      Except.ok (DBSCANClustering.resultPlotEvents nm) ∧
    (DBSCANClustering.resultPlotEvents nm).countP Event.isScore = 0 ∧
    (DBSCANClustering.resultPlotEvents nm).countP Event.isDbscanPlot = 1 ∧
    (DBSCANClustering.resultPlotEvents nm).countP Event.isSavedFig = 1 ∧
    (DBSCANClustering.resultPlotEvents nm).countP Event.isScatter = 0 ∧
    DBSCANClustering.special_components st kwargs =
      DBSCANClustering.special_components st kwargs2 := by
  have h1 : DBSCANClustering.special_components st kwargs =
      Except.ok (DBSCANClustering.resultPlotEvents nm) := by
    simp [DBSCANClustering.special_components, hX, hM, hN]
  have h2 : DBSCANClustering.special_components st kwargs2 =
      Except.ok (DBSCANClustering.resultPlotEvents nm) := by
    simp [DBSCANClustering.special_components, hX, hM, hN]
  refine ⟨h1, ?_, ?_, ?_, ?_, h1.trans h2.symm⟩ <;>
    simp [DBSCANClustering.resultPlotEvents, List.countP_cons, List.countP_nil,
      Event.isScore, Event.isDbscanPlot, Event.isSavedFig, Event.isScatter]

/-- Closed instance of `spec_C7_dbscan_special_components_unconditional` on
a concrete fitted DBSCAN workflow instance. -/
theorem spec_C7_witness :
    DBSCANClustering.special_components
      { core :=
          { X := Option.some [("a", [1, 2])],
            model := Option.some (DBSCAN.fitModel
              (DBSCAN.mkModel
                { eps := PyVal.float "0.5", min_samples := PyVal.int 5,
                  metric := PyVal.str "euclidean", metric_params := PyVal.none,
                  algorithm := PyVal.str "auto", leaf_size := PyVal.int 30,
                  p := PyVal.none, n_jobs := PyVal.none }) [0, -1]),
            naming := Option.some "DBSCAN" },
        eps := PyVal.float "0.5", min_samples := PyVal.int 5,
        metric := PyVal.str "euclidean", metric_params := PyVal.none,
        algorithm := PyVal.str "auto", leaf_size := PyVal.int 30,
        p := PyVal.none, n_jobs := PyVal.none }
      [("components_num", 2)] =
      Except.ok (DBSCANClustering.resultPlotEvents "DBSCAN") ∧
    (DBSCANClustering.resultPlotEvents "DBSCAN").countP Event.isScore = 0 ∧
    (DBSCANClustering.resultPlotEvents "DBSCAN").countP Event.isDbscanPlot = 1 :=
  have h := spec_C7_dbscan_special_components_unconditional
    _ [("a", [1, 2])] (DBSCAN.fitModel
      (DBSCAN.mkModel
        { eps := PyVal.float "0.5", min_samples := PyVal.int 5,
          metric := PyVal.str "euclidean", metric_params := PyVal.none,
          algorithm := PyVal.str "auto", leaf_size := PyVal.int 30,
          p := PyVal.none, n_jobs := PyVal.none }) [0, -1])
    "DBSCAN" [("components_num", 2)] [] rfl rfl rfl
  ⟨h.1, h.2.1, h.2.2.1⟩

/-- C4: For every fitted workflow instance whose stored feature table does
not already contain a "clustering result" column, `get_labels()` leaves the
row count unchanged, adds exactly one new column named "clustering result"
as the last column, holding the estimator's per-sample label, and persists
the augmented table under the instance's stored algorithm name. -/
theorem spec_C4_get_labels_adds_one_column
    (st : WorkflowCore) (df : DataFrame) (m : SkEstimator)
    (labels : List Int) (nm : String)
    (hX : st.X = Option.some df)
    (hM : st.model = Option.some m)
    (hL : m.labels_ = Option.some labels)
    (hN : st.naming = Option.some nm)
    (hAbsent : dfHasCol df "clustering result" = false)
    (hWf : ∀ c ∈ df, c.2.length = dfNRows df)
    (hRows : labels.length = dfNRows df) :
    ClusteringWorkflowBase.get_labels st =
      Except.ok ({ st with X := Option.some (df ++ [("clustering result", labels)]) },
        [Event.printed "-----* Clustering Labels *-----",
         Event.printedTable, Event.savedData nm]) ∧
    dfNRows (df ++ [("clustering result", labels)]) = dfNRows df ∧
    dfColNames (df ++ [("clustering result", labels)]) =
      dfColNames df ++ ["clustering result"] ∧
    dfGetCol (df ++ [("clustering result", labels)]) "clustering result" =
      Except.ok labels := by
  have hall : df.all (fun c => c.2.length == labels.length) = true := by
    refine List.all_eq_true.mpr ?_
    intro c hc
    have := hWf c hc
    simp [this, hRows]
  have hset : dfSetColChecked df "clustering result" labels =
      Except.ok (df ++ [("clustering result", labels)]) := by
    rw [dfSetColChecked, if_pos hall, dfSetCol_of_not_hasCol labels hAbsent]
  refine ⟨?_, ?_, ?_, dfGetCol_append_self hAbsent⟩
  · simp [ClusteringWorkflowBase.get_labels, hX, hM, hL, hN, hset]
  · cases df with
    | nil =>
      simp [dfNRows] at hRows ⊢
      exact hRows
    | cons c t => simp [dfNRows]
  · simp [dfColNames]

/-- Closed instance of `spec_C4_get_labels_adds_one_column` on a concrete
fitted two-row instance. -/
theorem spec_C4_witness :
    ClusteringWorkflowBase.get_labels
      { X := Option.some [("a", [10, 20])],
        model := Option.some
          { params := EstimatorParams.kmeans
              { n_clusters := PyVal.int 2, init := PyVal.str "k-means++",
                n_init := PyVal.int 10, max_iter := PyVal.int 300,
                tol := PyVal.float "1e-4", verbose := PyVal.int 0,
                random_state := PyVal.none, copy_x := PyVal.bool true,
                algorithm := PyVal.str "auto" },
            labels_ := Option.some [0, 1],
            cluster_centers_ := Option.some [[10], [20]],
            inertia_ := Option.some (PyVal.int 0) },
        naming := Option.some "KMeans" } =
      Except.ok
        ({ X := Option.some [("a", [10, 20]), ("clustering result", [0, 1])],
           model := Option.some
             { params := EstimatorParams.kmeans
                 { n_clusters := PyVal.int 2, init := PyVal.str "k-means++",
                   n_init := PyVal.int 10, max_iter := PyVal.int 300,
                   tol := PyVal.float "1e-4", verbose := PyVal.int 0,
                   random_state := PyVal.none, copy_x := PyVal.bool true,
                   algorithm := PyVal.str "auto" },
               labels_ := Option.some [0, 1],
               cluster_centers_ := Option.some [[10], [20]],
               inertia_ := Option.some (PyVal.int 0) },
           naming := Option.some "KMeans" },
         [Event.printed "-----* Clustering Labels *-----",
          Event.printedTable, Event.savedData "KMeans"]) ∧
    dfNRows [("a", [10, 20]), ("clustering result", [0, 1])] = dfNRows [("a", [10, 20])] :=
  have h := spec_C4_get_labels_adds_one_column
    _ [("a", [10, 20])] _ [0, 1] "KMeans" rfl rfl rfl rfl (by decide)
    (by intro c hc; rw [List.mem_singleton] at hc; rw [hc]; rfl) rfl
  ⟨h.1, h.2.1⟩

/-- C9: Calling `get_labels()` a second time on the same fitted instance
overwrites the existing "clustering result" column with the same values
instead of adding another column: the second call returns exactly the state
(and events) of the first call, so repeated calls leave the stored feature
table's shape and contents unchanged. -/
theorem spec_C9_get_labels_idempotent
    (st : WorkflowCore) (df : DataFrame) (m : SkEstimator)
    (labels : List Int) (nm : String)
    (hX : st.X = Option.some df)
    (hM : st.model = Option.some m)
    (hL : m.labels_ = Option.some labels)
    (hN : st.naming = Option.some nm)
    (hChk : df.all (fun c => c.2.length == labels.length) = true) :
    ∃ st1 ev,
      ClusteringWorkflowBase.get_labels st = Except.ok (st1, ev) ∧
      ClusteringWorkflowBase.get_labels st1 = Except.ok (st1, ev) ∧
      st1.X = Option.some (dfSetCol df "clustering result" labels) := by
  have hset : dfSetColChecked df "clustering result" labels =
      Except.ok (dfSetCol df "clustering result" labels) := by
    rw [dfSetColChecked, if_pos hChk]
  have hall1 := @dfSetCol_all_lengths df "clustering result" labels hChk
  have hset2 : dfSetColChecked (dfSetCol df "clustering result" labels)
      "clustering result" labels =
      Except.ok (dfSetCol df "clustering result" labels) := by
    rw [dfSetColChecked, if_pos hall1, dfSetCol_idem]
  refine ⟨{ st with X := Option.some (dfSetCol df "clustering result" labels) },
    [Event.printed "-----* Clustering Labels *-----",
     Event.printedTable, Event.savedData nm],
    ?_, ?_, rfl⟩
  · simp [ClusteringWorkflowBase.get_labels, hX, hM, hL, hN, hset]
  · simp [ClusteringWorkflowBase.get_labels, hM, hL, hN, hset2]

/-- Closed instance of `spec_C9_get_labels_idempotent` on a concrete fitted
two-row instance. -/
theorem spec_C9_witness :
    ∃ (st1 : WorkflowCore) (ev : List Event),
      ClusteringWorkflowBase.get_labels
        { X := Option.some [("a", [10, 20])],
          model := Option.some
            { params := EstimatorParams.kmeans
                { n_clusters := PyVal.int 2, init := PyVal.str "k-means++",
                  n_init := PyVal.int 10, max_iter := PyVal.int 300,
                  tol := PyVal.float "1e-4", verbose := PyVal.int 0,
                  random_state := PyVal.none, copy_x := PyVal.bool true,
                  algorithm := PyVal.str "auto" },
              labels_ := Option.some [0, 1],
              cluster_centers_ := Option.some [[10], [20]],
              inertia_ := Option.some (PyVal.int 0) },
          naming := Option.some "KMeans" } = Except.ok (st1, ev) ∧
      ClusteringWorkflowBase.get_labels st1 = Except.ok (st1, ev) ∧
      st1.X = Option.some (dfSetCol [("a", [10, 20])] "clustering result" [0, 1]) :=
  spec_C9_get_labels_idempotent _ [("a", [10, 20])] _ [0, 1] "KMeans"
    rfl rfl rfl rfl (by decide)

/-- C8: `fit(X, y)` stores a reference to the caller's feature table rather
than a copy — the heap is unchanged and `self.X` holds the caller's own
reference — so the in-place mutation performed by `get_labels()` (adding
the "clustering result" column) is visible on the very DataFrame object the
caller passed to `fit`. -/
theorem spec_C8_fit_aliases_callers_table
    (skFit : SkEstimator → DataFrame → SkEstimator) (h : DFHeap)
    (st : WorkflowRefCore) (r : Nat) (m : SkEstimator)
    (labels : List Int) (nm : String)
    (hM : st.model = Option.some m)
    (hN : st.naming = Option.some nm)
    (hLab : (skFit m (DFHeap.deref h r)).labels_ = Option.some labels)
    (hChk : (DFHeap.deref h r).all (fun c => c.2.length == labels.length) = true)
    (hr : r < h.length) :
    ∃ st1 : WorkflowRefCore,
      ClusteringWorkflowBase.fitRef skFit h st r = Except.ok (h, st1) ∧
      st1.Xref = Option.some r ∧
      ∃ (h2 : DFHeap) (ev : List Event),
        ClusteringWorkflowBase.get_labelsRef h st1 = Except.ok (h2, st1, ev) ∧
        DFHeap.deref h2 r =
          dfSetCol (DFHeap.deref h r) "clustering result" labels := by
  have hset : dfSetColChecked (DFHeap.deref h r) "clustering result" labels =
      Except.ok (dfSetCol (DFHeap.deref h r) "clustering result" labels) := by
    rw [dfSetColChecked, if_pos hChk]
  refine ⟨{ st with Xref := Option.some r
                    model := Option.some (skFit m (DFHeap.deref h r)) }, ?_, rfl,
    h.set r (dfSetCol (DFHeap.deref h r) "clustering result" labels),
    [Event.printed "-----* Clustering Labels *-----",
     Event.printedTable, Event.savedData nm], ?_, ?_⟩
  · simp [ClusteringWorkflowBase.fitRef, hM]
  · simp [ClusteringWorkflowBase.get_labelsRef, hLab, hN, hset]
  · rw [DFHeap.deref, List.getD_eq_getElem?_getD, List.getElem?_set_eq_of_lt _ hr]
    rfl

/-- Closed instance of `spec_C8_fit_aliases_callers_table`: a one-object
heap, a KMeans-style instance, and a fitting function labelling the two
rows; the caller's reference 0 sees the added column. -/
theorem spec_C8_witness :
    ∃ st1 : WorkflowRefCore,
      ClusteringWorkflowBase.fitRef
        (fun m _ => { m with labels_ := Option.some [0, 1] })
        [[("a", [10, 20])]]
        { Xref := Option.none,
          model := Option.some (KMeans.mkModel
            { n_clusters := PyVal.int 2, init := PyVal.str "k-means++",
              n_init := PyVal.int 10, max_iter := PyVal.int 300,
              tol := PyVal.float "1e-4", verbose := PyVal.int 0,
              random_state := PyVal.none, copy_x := PyVal.bool true,
              algorithm := PyVal.str "auto" }),
          naming := Option.some "KMeans" } 0 =
        Except.ok ([[("a", [10, 20])]], st1) ∧
      st1.Xref = Option.some 0 ∧
      ∃ (h2 : DFHeap) (ev : List Event),
        ClusteringWorkflowBase.get_labelsRef [[("a", [10, 20])]] st1 =
          Except.ok (h2, st1, ev) ∧
        DFHeap.deref h2 0 =
          dfSetCol (DFHeap.deref [[("a", [10, 20])]] 0) "clustering result" [0, 1] :=
  spec_C8_fit_aliases_callers_table
    (fun m _ => { m with labels_ := Option.some [0, 1] })
    [[("a", [10, 20])]] _ 0 _ [0, 1] "KMeans" rfl rfl rfl (by decide) (by decide)

/-- C2: For every call to `KMeansClustering.special_components` after fit
and `get_labels`: `components_num = 2` invokes exactly one scatter plot
call (the 2D scatter); `components_num ≥ 3` invokes exactly one scatter
plot call (the 3D scatter, with the result literally identical for 3 and
for any value above 3); any other value invokes zero scatter plot
calls. -/
theorem spec_C2_kmeans_scatter_branching
    (st : KMeansClusteringState) (df : DataFrame) (m : SkEstimator)
    (iv : PyVal) (labels lbl : List Int) (nm : String)
    (kwargs : List (String × Int)) (cn : Int)
    (hX : st.core.X = Option.some df)
    (hM : st.core.model = Option.some m)
    (hI : m.inertia_ = Option.some iv)
    (hL : m.labels_ = Option.some labels)
    (hCol : dfGetCol df "clustering result" = Except.ok lbl)
    (hN : st.core.naming = Option.some nm)
    (hKw : kwLookup kwargs "components_num" = Except.ok cn) :
    (cn = 2 →
      KMeansClustering.special_components st kwargs =
        Except.ok (KMeansClustering.scoresEvents ++
          ClusteringWorkflowBase.centersPrintEvents ++
          KMeansClustering.silhouetteEvents nm ++
          KMeansClustering.scatter2dEvents nm) ∧
      (KMeansClustering.scoresEvents ++
        ClusteringWorkflowBase.centersPrintEvents ++
        KMeansClustering.silhouetteEvents nm ++
        KMeansClustering.scatter2dEvents nm).countP Event.isScatter = 1 ∧
      (KMeansClustering.scoresEvents ++
        ClusteringWorkflowBase.centersPrintEvents ++
        KMeansClustering.silhouetteEvents nm ++
        KMeansClustering.scatter2dEvents nm).countP Event.isScatter2d = 1) ∧
    (3 ≤ cn →
      KMeansClustering.special_components st kwargs =
        Except.ok (KMeansClustering.scoresEvents ++
          ClusteringWorkflowBase.centersPrintEvents ++
          KMeansClustering.silhouetteEvents nm ++
          KMeansClustering.scatter3dEvents) ∧
      (KMeansClustering.scoresEvents ++
        ClusteringWorkflowBase.centersPrintEvents ++
        KMeansClustering.silhouetteEvents nm ++
        KMeansClustering.scatter3dEvents).countP Event.isScatter = 1 ∧
      (KMeansClustering.scoresEvents ++
        ClusteringWorkflowBase.centersPrintEvents ++
        KMeansClustering.silhouetteEvents nm ++
        KMeansClustering.scatter3dEvents).countP Event.isScatter3d = 1) ∧
    (cn < 2 →
      KMeansClustering.special_components st kwargs =
        Except.ok (KMeansClustering.scoresEvents ++
          ClusteringWorkflowBase.centersPrintEvents ++
          KMeansClustering.silhouetteEvents nm) ∧
      (KMeansClustering.scoresEvents ++
        ClusteringWorkflowBase.centersPrintEvents ++
        KMeansClustering.silhouetteEvents nm).countP Event.isScatter = 0) := by
  have hrun : KMeansClustering.special_components st kwargs =
      Except.ok (KMeansClustering.scoresEvents ++
        ClusteringWorkflowBase.centersPrintEvents ++
        KMeansClustering.silhouetteEvents nm ++
        (if cn > 3 then KMeansClustering.scatter3dEvents
         else if cn = 3 then KMeansClustering.scatter3dEvents
         else if cn = 2 then KMeansClustering.scatter2dEvents nm
         else [])) := by
    simp only [KMeansClustering.special_components, KMeansClustering.get_scores,
      ClusteringWorkflowBase.get_cluster_centers, hX, hM, hI, hL, hCol, hN, hKw]
  refine ⟨?_, ?_, ?_⟩
  · intro h2
    subst h2
    refine ⟨by rw [hrun]; norm_num, ?_, ?_⟩ <;>
      simp [KMeansClustering.scoresEvents, ClusteringWorkflowBase.centersPrintEvents,
        KMeansClustering.silhouetteEvents, KMeansClustering.scatter2dEvents,
        List.countP_append, List.countP_cons,
        Event.isScatter, Event.isScatter2d]
  · intro h3
    have hbranch : (if cn > 3 then KMeansClustering.scatter3dEvents
        else if cn = 3 then KMeansClustering.scatter3dEvents
        else if cn = 2 then KMeansClustering.scatter2dEvents nm
        else []) = KMeansClustering.scatter3dEvents := by
      rcases lt_or_eq_of_le h3 with hlt | heq
      · rw [if_pos hlt]
      · rw [if_neg (by omega), if_pos heq.symm]
    refine ⟨by rw [hrun, hbranch], ?_, ?_⟩ <;>
      simp [KMeansClustering.scoresEvents, ClusteringWorkflowBase.centersPrintEvents,
        KMeansClustering.silhouetteEvents, KMeansClustering.scatter3dEvents,
        List.countP_append, List.countP_cons,
        Event.isScatter, Event.isScatter3d]
  · intro h0
    refine ⟨?_, ?_⟩
    · rw [hrun, if_neg (by omega), if_neg (by omega), if_neg (by omega),
        List.append_nil]
    · simp [KMeansClustering.scoresEvents, ClusteringWorkflowBase.centersPrintEvents,
        KMeansClustering.silhouetteEvents,
        List.countP_append, List.countP_cons, Event.isScatter]

/-- Closed instance of `spec_C2_kmeans_scatter_branching` on a concrete
fitted and labelled KMeans instance with `components_num = 2`. -/
theorem spec_C2_witness :
    KMeansClustering.special_components
      { core :=
          { X := Option.some [("a", [10, 20]), ("clustering result", [0, 1])],
            model := Option.some
              { params := EstimatorParams.kmeans
                  { n_clusters := PyVal.int 2, init := PyVal.str "k-means++",
                    n_init := PyVal.int 10, max_iter := PyVal.int 300,
                    tol := PyVal.float "1e-4", verbose := PyVal.int 0,
                    random_state := PyVal.none, copy_x := PyVal.bool true,
                    algorithm := PyVal.str "auto" },
                labels_ := Option.some [0, 1],
                cluster_centers_ := Option.some [[10], [20]],
                inertia_ := Option.some (PyVal.int 0) },
            naming := Option.some "KMeans" },
        n_clusters := PyVal.int 2, init := PyVal.str "k-means++",
        max_iter := PyVal.int 300, tol := PyVal.float "1e-4",
        n_init := PyVal.int 10, verbose := PyVal.int 0,
        random_state := PyVal.none, copy_x := PyVal.bool true,
        algorithm := PyVal.str "auto" }
      [("components_num", 2)] =
      Except.ok (KMeansClustering.scoresEvents ++
        ClusteringWorkflowBase.centersPrintEvents ++
        KMeansClustering.silhouetteEvents "KMeans" ++
        KMeansClustering.scatter2dEvents "KMeans") ∧
    (KMeansClustering.scoresEvents ++
      ClusteringWorkflowBase.centersPrintEvents ++
      KMeansClustering.silhouetteEvents "KMeans" ++
      KMeansClustering.scatter2dEvents "KMeans").countP Event.isScatter = 1 :=
  have h := spec_C2_kmeans_scatter_branching
    _ [("a", [10, 20]), ("clustering result", [0, 1])] _ (PyVal.int 0)
    [0, 1] [0, 1] "KMeans" [("components_num", 2)] 2
    rfl rfl rfl rfl rfl rfl rfl
  ⟨(h.1 rfl).1, (h.1 rfl).2.1⟩

/-- C10: `KMeansClustering.special_components` requires the keyword
argument `components_num` and a prior `get_labels()` call: when the stored
feature table lacks the "clustering result" column the call fails with a
key-not-found error while reading the labels column, and when
`components_num` is absent from kwargs the call fails with a key-not-found
error (for `components_num` itself when the column is present, and in every
case with some `KeyError`). -/
theorem spec_C10_kmeans_special_components_key_errors
    (st : KMeansClusteringState) (df : DataFrame) (m : SkEstimator)
    (iv : PyVal) (labels : List Int) (nm : String)
    (kwargs : List (String × Int))
    (hX : st.core.X = Option.some df)
    (hM : st.core.model = Option.some m)
    (hI : m.inertia_ = Option.some iv)
    (hL : m.labels_ = Option.some labels)
    (hN : st.core.naming = Option.some nm) :
    (dfHasCol df "clustering result" = false →
      KMeansClustering.special_components st kwargs =
        Except.error (PyError.keyError "clustering result")) ∧
    (∀ lbl, dfGetCol df "clustering result" = Except.ok lbl →
      kwLookup kwargs "components_num" =
        Except.error (PyError.keyError "components_num") →
      KMeansClustering.special_components st kwargs =
        Except.error (PyError.keyError "components_num")) ∧
    (kwLookup kwargs "components_num" =
        Except.error (PyError.keyError "components_num") →
      ∃ k, KMeansClustering.special_components st kwargs =
        Except.error (PyError.keyError k)) := by
  have herr2 : ∀ lbl, dfGetCol df "clustering result" = Except.ok lbl →
      kwLookup kwargs "components_num" =
        Except.error (PyError.keyError "components_num") →
      KMeansClustering.special_components st kwargs =
        Except.error (PyError.keyError "components_num") := by
    intro lbl hcol hkw
    simp only [KMeansClustering.special_components, KMeansClustering.get_scores,
      ClusteringWorkflowBase.get_cluster_centers, hX, hM, hI, hL, hcol, hN, hkw]
  refine ⟨?_, herr2, ?_⟩
  · intro h
    simp only [KMeansClustering.special_components, KMeansClustering.get_scores,
      hX, hM, hI, hL, dfGetCol_of_not_hasCol h]
  · intro hkw
    cases hcase : dfGetCol df "clustering result" with
    | error e =>
      have he := dfGetCol_error_keyError hcase
      subst he
      refine ⟨"clustering result", ?_⟩
      simp only [KMeansClustering.special_components, KMeansClustering.get_scores,
        hX, hM, hI, hL, hcase]
    | ok lbl => exact ⟨"components_num", herr2 lbl hcase hkw⟩

/-- Closed instance of `spec_C10_kmeans_special_components_key_errors`:
without a prior `get_labels` the call raises `KeyError` for the labels
column, and with the column present but no `components_num` keyword it
raises `KeyError` for `components_num`. -/
theorem spec_C10_witness :
    KMeansClustering.special_components
      { core :=
          { X := Option.some [("a", [10, 20])],
            model := Option.some
              { params := EstimatorParams.kmeans
                  { n_clusters := PyVal.int 2, init := PyVal.str "k-means++",
                    n_init := PyVal.int 10, max_iter := PyVal.int 300,
                    tol := PyVal.float "1e-4", verbose := PyVal.int 0,
                    random_state := PyVal.none, copy_x := PyVal.bool true,
                    algorithm := PyVal.str "auto" },
                labels_ := Option.some [0, 1],
                cluster_centers_ := Option.some [[10], [20]],
                inertia_ := Option.some (PyVal.int 0) },
            naming := Option.some "KMeans" },
        n_clusters := PyVal.int 2, init := PyVal.str "k-means++",
        max_iter := PyVal.int 300, tol := PyVal.float "1e-4",
        n_init := PyVal.int 10, verbose := PyVal.int 0,
        random_state := PyVal.none, copy_x := PyVal.bool true,
        algorithm := PyVal.str "auto" } [] =
      Except.error (PyError.keyError "clustering result") ∧
    KMeansClustering.special_components
      { core :=
          { X := Option.some [("a", [10, 20]), ("clustering result", [0, 1])],
            model := Option.some
              { params := EstimatorParams.kmeans
                  { n_clusters := PyVal.int 2, init := PyVal.str "k-means++",
                    n_init := PyVal.int 10, max_iter := PyVal.int 300,
                    tol := PyVal.float "1e-4", verbose := PyVal.int 0,
                    random_state := PyVal.none, copy_x := PyVal.bool true,
                    algorithm := PyVal.str "auto" },
                labels_ := Option.some [0, 1],
                cluster_centers_ := Option.some [[10], [20]],
                inertia_ := Option.some (PyVal.int 0) },
            naming := Option.some "KMeans" },
        n_clusters := PyVal.int 2, init := PyVal.str "k-means++",
        max_iter := PyVal.int 300, tol := PyVal.float "1e-4",
        n_init := PyVal.int 10, verbose := PyVal.int 0,
        random_state := PyVal.none, copy_x := PyVal.bool true,
        algorithm := PyVal.str "auto" } [] =
      Except.error (PyError.keyError "components_num") :=
  have h1 := spec_C10_kmeans_special_components_key_errors
    _ [("a", [10, 20])] _ (PyVal.int 0) [0, 1] "KMeans" []
    rfl rfl rfl rfl rfl
  have h2 := spec_C10_kmeans_special_components_key_errors
    _ [("a", [10, 20]), ("clustering result", [0, 1])] _ (PyVal.int 0)
    [0, 1] "KMeans" [] rfl rfl rfl rfl rfl
  ⟨h1.1 (by decide), h2.2.1 [0, 1] rfl rfl⟩
